import Mathlib

/-
Verification of the PyRCM multiplexed resource-access layer
(`b3j0f/rcm/binding/port.py` and `b3j0f/rcm/io/policy/base.py`).

The Python modules are shallowly embedded as executable Lean definitions:

* Python values that flow through ports and policies are modelled by the
  inductive type `PValue`.  The `PolicyResultSet` wrapper (a tuple subclass,
  defined in the `b3j0f.rcm.io.policy.core` module which is absent from the
  sources; it is an immutable ordered sequence tag) is the `prs` constructor,
  plain lists are `pyList`, plain tuples are `tup`, a `ProxySet` value is
  `pset`, and proxy objects produced by `b3j0f.utils.proxy.get_proxy` are
  `wrap k v` where `k` is a freshness stamp (every call of `get_proxy`
  creates a new object) and `v` the wrapped element.
* Python exceptions are values of `PyErr`; a function that can raise returns
  `Except PyErr _` or threads the exception next to the mutated state.
* Interface descriptors are identified with `Nat`; the subtype test
  `is_sub_itf` is an explicit function parameter `isSub : Nat → Nat → Bool`,
  so concrete interface hierarchies can be supplied in witnesses.
* Sources of randomness (`random.shuffle`, `random.choice`) are explicit
  function parameters (`perm`, `pick`).

The `Policy` / `ParameterizedPolicy` base classes live in the absent
`b3j0f.rcm.io.policy.core` module; following the specification ("a policy
… operating only on values tagged as PolicyResultSet; any other value type
must pass through completely unmodified") and the unit tests
(`b3j0f/rcm/io/policy/test/base.py`, which exercise `ParameterizedPolicy`
itself and expect the named parameter back unchanged), the base call is
modelled as returning the policy's named parameter unchanged.  The
post-processing performed by each concrete policy class is translated from
`b3j0f/rcm/io/policy/base.py`.
-/

/-- Python exceptions raised by the embedded code. -/
inductive PyErr where
  | portError : PyErr
  | countError : PyErr
  | attributeError : String → PyErr
  | keyError : String → PyErr
  | typeError : PyErr
  | indexError : PyErr
  deriving DecidableEq, Repr

/-- Python values flowing through ports and policies. -/
inductive PValue where
  | int : Int → PValue
  | pyNone : PValue
  | prs : List PValue → PValue
  | pyList : List PValue → PValue
  | tup : List PValue → PValue
  | pset : List PValue → PValue
  | wrap : Nat → PValue → PValue
  deriving Repr

/-- True exactly on `PolicyResultSet` values (`isinstance(v, PolicyResultSet)`). -/
def PValue.isPRS : PValue → Bool
  | .prs _ => true
  | _ => false

/-- Python slice `l[0:stop]` for an arbitrary (possibly negative) `stop`:
a negative stop counts from the end of the list, and the result is clamped
to the list. -/
def pySliceToStop (l : List PValue) (stop : Int) : List PValue :=
  if stop < 0 then l.take (l.length - stop.natAbs) else l.take stop.toNat

/-- ParameterizedPolicy.__call__ — modelled from the spec: the base class (in
the absent `b3j0f.rcm.io.policy.core` module) extracts the parameter named
`self.name` from the keyword arguments and returns it unchanged; every
concrete policy below first performs this `super().__call__` step. -/
def ParameterizedPolicy.call (v : PValue) : PValue := v

/-- FirstPolicy.__call__ (policy/base.py lines 98-105): on a
`PolicyResultSet`, the first element, or `None` when the set is empty;
anything else is returned unchanged. -/
def FirstPolicy.call (v : PValue) : PValue :=
  let result := ParameterizedPolicy.call v
  match result with
  | .prs (x :: _) => x
  | .prs [] => .pyNone
  | r => r

/-- AllPolicy (policy/base.py lines 108-110): no `__call__` override, so the
base behaviour applies. -/
def AllPolicy.call (v : PValue) : PValue :=
  ParameterizedPolicy.call v

/-- CountPolicy.__call__ (policy/base.py lines 132-156).  On a
`PolicyResultSet`: raise `CountError` when the candidate count is below
`inf`; otherwise, if `random`, shuffle (modelled by `perm`) and keep
`result[0 : sup - inf]` (Python slice over ints, hence `pySliceToStop`),
else keep the slice `result[inf:sup]`; rewrap as a `PolicyResultSet`.
Any non-`PolicyResultSet` value is returned unchanged. -/
def CountPolicy.call (inf sup : Nat) (random : Bool)
    (perm : List PValue → List PValue) (v : PValue) : Except PyErr PValue :=
  let result := ParameterizedPolicy.call v
  match result with
  | .prs l =>
      if l.length < inf then .error .countError
      else
        let sliced :=
          if random then pySliceToStop (perm l) ((sup : Int) - (inf : Int))
          else (l.drop inf).take (sup - inf)
        .ok (.prs sliced)
  | r => .ok r

/-- RandomPolicy.__call__ (policy/base.py lines 164-175): on a non-empty
`PolicyResultSet`, `random.choice` picks one element (modelled by the index
function `pick`; `choice` always returns an element, so callers supply
`pick l < l.length`); on an empty one, `None`; anything else unchanged. -/
def RandomPolicy.call (pick : List PValue → Nat) (v : PValue) : PValue :=
  let result := ParameterizedPolicy.call v
  match result with
  | .prs [] => .pyNone
  | .prs l => l.getD (pick l) .pyNone
  | r => r

/-- RoundaboutPolicy.__call__ (policy/base.py lines 190-202).  The mutable
cursor `self.index` is threaded explicitly: on a non-empty
`PolicyResultSet` the cursor is first advanced modulo the set length and
the element at the old cursor is returned (`result[index]` raises
IndexError when the persisted cursor is out of range, after the cursor
update); on an empty set, `None` with the cursor untouched; anything else
is returned unchanged. -/
def RoundaboutPolicy.call (index : Nat) (v : PValue) :
    (Except PyErr PValue) × Nat :=
  let result := ParameterizedPolicy.call v
  match result with
  | .prs [] => (.ok .pyNone, index)
  | .prs l =>
      let newIndex := (index + 1) % l.length
      (match l.get? index with
       | some x => .ok x
       | none => .error .indexError, newIndex)
  | r => (.ok r, index)

/-
Port model (`b3j0f/rcm/binding/port.py`).

The `Resource` base class (`b3j0f.rcm.binding.core`) and the `Component`
container (`b3j0f.rcm.core`) are absent from the sources.  Modelled from the
spec: a `Resource` exposes an ordered set of required interface descriptors
`itfs` and a `proxy` value; a `Component` is a dict-like container of named
ports whose `set_port(port, name)` installs `port` under `name` and returns
the `(name, previous binding)` pair, and whose `get_ports(types=Resource)`
returns the bound children that are resources, in binding order.
-/

/-- A value bound into a port's container: either a `Resource` (with its
required interfaces and its proxy value) or a non-resource binding. -/
inductive PortVal where
  | res : List Nat → PValue → PortVal
  | plain : PValue → PortVal
  deriving Repr

/-- isinstance(x, Resource) for bound values. -/
def PortVal.isResource : PortVal → Bool
  | .res _ _ => true
  | .plain _ => false

/-- The state of a `Port` object: `itfs` is the required-interface list held
by the (spec-modelled) `Resource` base, `inf`/`sup` are the `_inf`/`_sup`
instance attributes, `multiple` is `_multiple`, `proxyCache` is `_proxy`
(`none` models Python `None`), and `ports` is the (spec-modelled)
`Component` mapping of bound children in binding order. -/
structure PortState where
  itfs : List Nat
  inf : Nat
  sup : Nat
  multiple : Bool
  proxyCache : Option PValue
  ports : List (String × PortVal)
  deriving Repr

/-- The inner `for self_itf in self.itfs` loop of `Port.check_res`
(port.py lines 247-251): `result` is reassigned at every probe and the
`break` exits this inner loop only. -/
def checkResInner (isSub : Nat → Nat → Bool) (resource_itf : Nat) :
    List Nat → Bool → Bool
  | [], result => result
  | self_itf :: rest, _ =>
      let r := isSub resource_itf self_itf
      if r then checkResInner isSub resource_itf rest r else r

/-- Port.check_res (port.py lines 238-253): starts from `result = True` and
runs the nested loops, carrying `result` across iterations of the outer
`for resource_itf in resource.itfs` loop. -/
def Port.check_res (isSub : Nat → Nat → Bool)
    (resourceItfs selfItfs : List Nat) : Bool :=
  resourceItfs.foldl
    (fun result resource_itf => checkResInner isSub resource_itf selfItfs result)
    true

/-- The binding-compatibility predicate as the specification words it
("every required interface of `resource` is a sub-interface of every
required interface of the port"), stated for comparison with the source's
`Port.check_res`. -/
def check_res_asSpecified (isSub : Nat → Nat → Bool)
    (resourceItfs selfItfs : List Nat) : Bool :=
  resourceItfs.all (fun r => selfItfs.all (fun s => isSub r s))

/-- The attribute names resolvable on a `Port` instance: the instance
attributes assigned by `Port.__init__` (port.py lines 141-149), the
properties and methods defined by the `Port` class itself (port.py), the
`Port` class-level string constants, and the members contributed by the
spec-modelled `Resource`/`Component` bases (`itfs`, `proxy`, `id`,
`get_ports`, `set_port`, back-reference table `_bound_on`, and the
`_add_resource`/`_remove_resource` bookkeeping helpers named by
`Port.set_port`).  In particular nothing defines attributes named `inf`,
`sup`, `ifs` or `_respolicy`, all of which `_renew_proxy`/`_method_proxy`
dereference. -/
def portAttrNames : List String :=
  ["_multiple", "_inf", "_sup", "_selectpolicy", "_execpolicy",
   "_resultpolicy", "_proxy",
   "multiple", "itfs", "resources", "proxy",
   "MULTIPLE", "INF", "SUP", "_PROXY", "_SELECTPOLICY", "_EXECPOLICY",
   "_RESULTPOLICY", "PortError",
   "set_port", "check_res", "_renew_proxy", "_method_proxy",
   "get_ports", "_bound_on", "_add_resource", "_remove_resource", "id"]

/-- hasattr on a Port instance. -/
def portHasAttr (name : String) : Bool := portAttrNames.contains name

/-- The attributes dereferenced on `self` by the first two statements of
`Port._renew_proxy` (port.py lines 260-263), in Python evaluation order:
`resources = self.resources[self.inf:self.sup]` evaluates the `resources`
property, then reads `inf` and `sup`; `bases = (itf.py_class for itf in
self.ifs)` evaluates the generator's iterable `self.ifs` immediately. -/
def renewProxyAttrReads : List String := ["resources", "inf", "sup", "ifs"]

/-- The ordered sub-list of bound children that are resources —
`self.resources`, i.e. the spec-modelled `get_ports(types=Resource)`. -/
def PortState.resourceList (st : PortState) : List (String × List Nat × PValue) :=
  st.ports.filterMap
    (fun np => match np.2 with
               | .res i v => some (np.1, i, v)
               | .plain _ => none)

/-- One-level flattening of backend proxy values, as in the non-multiple
branch of `_renew_proxy` (port.py lines 274-281): a backend whose proxy is
itself a `ProxySet` contributes its elements, any other proxy contributes
itself. -/
def flattenProxies (rs : List (String × List Nat × PValue)) : List PValue :=
  rs.flatMap (fun r => match r.2.2 with
                       | .pset l => l
                       | w => [w])

/-- The proxy value `_renew_proxy` intends to install (port.py lines
260-309), written at the level of the window/flattening algorithm: the
resource window `[inf:sup]`, then either a `ProxySet` over the window
(`multiple`), or `None` when the window is empty, or the aggregating object
over the flattened backend proxies wrapped as a `PolicyResultSet`.  This
value is only produced in the counterfactual branch of `Port._renew_proxy`
below — see its documentation. -/
def computeProxyValue (st : PortState) : Option PValue :=
  let window := (st.resourceList.drop st.inf).take (st.sup - st.inf)
  if st.multiple then some (.pset (flattenProxies window))
  else if window.isEmpty then none
  else some (.prs (flattenProxies window))

/-- Port._renew_proxy (port.py lines 255-317).  The method's statements are
executed in order and the first dereference of an attribute the object does
not have raises `AttributeError`, aborting the method before `_proxy` is
assigned and before the `_bound_on` propagation loop is reached.  `Port`
objects have no attribute `inf` (see `portAttrNames`: `__init__` stores
`_inf`, the class constant is named `INF`, and no accessor is defined in
the class or in the spec-modelled bases), so on every `Port` object the
method fails on its first statement with `AttributeError` and leaves the
state untouched.  The second component of the result is the raised
exception (or `()` on success); the `none` branch — unreachable on `Port`
objects, as `renew_proxy_always_attribute_error` proves — records the
renewal the remaining statements would perform. -/
def Port._renew_proxy (st : PortState) : PortState × Except PyErr Unit :=
  match renewProxyAttrReads.find? (fun n => !(portHasAttr n)) with
  | some n => (st, .error (.attributeError n))
  | none => ({ st with proxyCache := computeProxyValue st }, .ok ())

/-- Helper: insertion into the spec-modelled `Component` mapping — replace
in place when the name is already bound, append otherwise (dict update
order). -/
def insertPort : List (String × PortVal) → String → PortVal → List (String × PortVal)
  | [], name, p => [(name, p)]
  | (n, q) :: rest, name, p =>
      if n = name then (n, p) :: rest else (n, q) :: insertPort rest name p

/-- Helper: lookup of the previous binding under a name. -/
def lookupPort (ports : List (String × PortVal)) (name : String) : Option PortVal :=
  (ports.find? (fun np => np.1 = name)).map (fun np => np.2)

/-- The body of `Port.set_port` after the compatibility check (port.py lines
217-236): `super().set_port` (spec-modelled `Component.set_port`) installs
the new binding under `name` and yields the previous one; when the old or
the new value is a `Resource`, `_remove_resource`/`_add_resource`
(spec-modelled: back-reference bookkeeping on the bound resource, with no
effect on this port's own bindings or proxy cache) run and `_renew_proxy`
is invoked; an exception raised by `_renew_proxy` propagates, keeping the
mutations made so far. -/
def Port.set_port_after_check (st : PortState) (port : PortVal) (name : String) :
    PortState × Except PyErr (String × Option PortVal) :=
  let old := lookupPort st.ports name
  let st1 := { st with ports := insertPort st.ports name port }
  let change_of_resources :=
    (match old with | some o => o.isResource | none => false) || port.isResource
  if change_of_resources then
    match Port._renew_proxy st1 with
    | (st2, .error e) => (st2, .error e)
    | (st2, .ok _) => (st2, .ok (name, old))
  else (st1, .ok (name, old))

/-- Port.set_port (port.py lines 207-236): first statement — when the new
value is a `Resource` failing `check_res`, raise `PortError` before any
binding change; otherwise proceed with the binding update and the eager
proxy renewal. -/
def Port.set_port (isSub : Nat → Nat → Bool) (st : PortState)
    (port : PortVal) (name : String) :
    PortState × Except PyErr (String × Option PortVal) :=
  match port with
  | .res ritfs pv =>
      if Port.check_res isSub ritfs st.itfs then
        Port.set_port_after_check st (.res ritfs pv) name
      else (st, .error .portError)
  | .plain v => Port.set_port_after_check st (.plain v) name

/-- The `multiple` property setter (port.py lines 161-170): when the new
value differs from `_multiple`, flip the flag and invoke `_renew_proxy`;
otherwise do nothing.  The final `Bool` records whether `_renew_proxy` was
invoked. -/
def Port.multiple_setter (st : PortState) (value : Bool) :
    PortState × Except PyErr Unit × Bool :=
  if value ≠ st.multiple then
    let st1 := { st with multiple := !st.multiple }
    match Port._renew_proxy st1 with
    | (st2, r) => (st2, r, true)
  else (st, .ok (), false)

/-- A concrete port used by witnesses: one required interface `3`, bounds
`inf=0`, `sup=1000`, non-multiple, fresh (`_proxy = None`), no bindings. -/
def examplePort : PortState :=
  { itfs := [3], inf := 0, sup := 1000, multiple := false,
    proxyCache := none, ports := [] }

/-- Python iteration over a value (`for proxy_to_run in proxies_to_run`):
sequences yield their elements, anything else raises `TypeError`. -/
def pyIter : PValue → Except PyErr (List PValue)
  | .prs l => .ok l
  | .pyList l => .ok l
  | .tup l => .ok l
  | .pset l => .ok l
  | _ => .error .typeError

/-- The per-call dispatch closure built by `Port._method_proxy` (port.py
lines 344-383), for one method, with the per-method policy resolution
(lines 330-341) already performed: `selectpolicy`/`execpolicy`/`respolicy`
are the resolved policies (`none` when unconfigured) and `callRoutine`
models `getattr(proxy_to_run, r_name)(*args, **kwargs)` on one backend
proxy.  The policies are modelled as functions of the candidate value they
transform (the source also passes `port`, `routine`, `instance` and the
call arguments, which the `b3j0f` policy classes treat as the keyword
context around the named parameter).  Stages, as in the source: selection
(default: the full candidate set unchanged), execution (default: invoke the
method on every selected candidate in order, collecting a plain list), then
result aggregation — with no result policy, a non-empty `PolicyResultSet`
of results yields the literal `result = [0]` (the one-element list holding
the integer `0`), anything else is returned unchanged. -/
def Port._method_proxy (selectpolicy : Option (PValue → PValue))
    (execpolicy : Option (PValue → PValue))
    (respolicy : Option (PValue → PValue → PValue))
    (callRoutine : PValue → PValue)
    (proxies : PValue) : Except PyErr PValue :=
  let proxies_to_run :=
    match selectpolicy with
    | none => proxies
    | some sp => sp proxies
  let resultsE : Except PyErr PValue :=
    match execpolicy with
    | none =>
        match pyIter proxies_to_run with
        | .error e => .error e
        | .ok l => .ok (.pyList (l.map callRoutine))
    | some ep => .ok (ep proxies_to_run)
  match resultsE with
  | .error e => .error e
  | .ok results =>
      match respolicy with
      | none =>
          .ok (match results with
               | .prs (_ :: _) => .pyList [.int 0]
               | r => r)
      | some rp => .ok (rp proxies results)

/-
ProxySet model (port.py lines 388-441).
-/

/-- The `resources` dict passed to `ProxySet.__init__`: each named entry is
a resource, modelled by its own dict-like `Component` children (the
mapping `__getitem__` consults) — `ProxySet.__init__` reads
`resource[name]`, a child lookup, not `resource.proxy`. -/
structure ResourceModel where
  children : List (String × PValue)
  deriving Repr

/-- The observable outcome of `ProxySet.__init__`: `elements` is the actual
tuple content of the constructed object and `namesByProxy` the
`_resource_names_by_proxy` mapping (keyed by the freshly created proxy
objects, which are distinct for every `get_proxy` call — hence the
freshness stamp on `PValue.wrap`). -/
structure ProxySetModel where
  elements : List PValue
  namesByProxy : List (PValue × String)
  deriving Repr

/-- The per-resource loop of `ProxySet.__init__` (port.py lines 416-424):
`proxy = resource[name]` (KeyError when the resource has no child under the
name it is bound by); a non-`ProxySet` proxy is wrapped in a one-element
tuple; then, for every element `p` of the collection, a fresh
`get_proxy(elt=proxy, bases=bases)` — note: of the whole collection
`proxy`, not of `p` — is recorded against the resource name.  `k` threads
the freshness stamp of `get_proxy`. -/
def proxySetInitLoop :
    List (String × ResourceModel) → Nat → List (PValue × String) →
    Except PyErr (List (PValue × String))
  | [], _, acc => .ok acc
  | (name, r) :: rest, k, acc =>
      match (r.children.find? (fun c => c.1 = name)).map (fun c => c.2) with
      | none => .error (.keyError name)
      | some v =>
          let collection := match v with | .pset l => l | w => [w]
          let elt := match v with | .pset _ => v | w => .tup [w]
          let newEntries :=
            (List.range collection.length).map
              (fun i => (PValue.wrap (k + i) elt, name))
          proxySetInitLoop rest (k + collection.length) (acc ++ newEntries)

/-- ProxySet.__init__ (port.py lines 404-426).  After the loop fills
`_resource_names_by_proxy`, the statement
`super(ProxySet, self).__init__(self._resource_names_by_proxy.keys())`
cannot populate the sequence: a tuple's content is fixed by `tuple.__new__`
(not overridden, and given no iterable — in CPython the construction even
fails outright because the keyword arguments `port=`, `resources=`,
`bases=` reach `tuple.__new__`), so the constructed sequence is empty. -/
def ProxySet.init (resources : List (String × ResourceModel)) :
    Except PyErr ProxySetModel :=
  match proxySetInitLoop resources 0 [] with
  | .error e => .error e
  | .ok m => .ok { elements := [], namesByProxy := m }

/-- Identity of `get_proxy` products: two wrapper objects are the same
object exactly when they carry the same freshness stamp. -/
def PValue.wrapKeyMatches : PValue → PValue → Bool
  | .wrap k _, .wrap k' _ => k == k'
  | _, _ => false

/-- ProxySet.get_resource_name (port.py lines 428-440): dictionary lookup of
the proxy in `_resource_names_by_proxy` (the unhashable-proxy fallback via
`id(proxy)` coincides with this lookup here, wrapper objects being keyed by
identity), raising a lookup error for a proxy the set did not produce. -/
def ProxySet.get_resource_name (ps : ProxySetModel) (proxy : PValue) :
    Except PyErr String :=
  match ps.namesByProxy.find? (fun e => PValue.wrapKeyMatches e.1 proxy) with
  | some e => .ok e.2
  | none => .error (.keyError "proxy")

/-- The C9 scenario: resource `m` is itself multi-valued with the two
backends `1` and `2`, resources `x` and `y` are single-valued.  Because
`ProxySet.__init__` looks up `resource[name]` — a child-port lookup on the
resource under its port-side binding name — instead of `resource.proxy`,
each resource here is additionally given a child under its own binding
name holding its proxy value, the only shape on which the lookup can
succeed; `c9BareResources` is the same scenario without that child. -/
def c9Resources : List (String × ResourceModel) :=
  [("m", ⟨[("m", .pset [.int 1, .int 2])]⟩),
   ("x", ⟨[("x", .int 3)]⟩),
   ("y", ⟨[("y", .int 4)]⟩)]

/-- The C9 scenario with ordinary resources (no child named after their own
binding name). -/
def c9BareResources : List (String × ResourceModel) :=
  [("m", ⟨[]⟩), ("x", ⟨[]⟩), ("y", ⟨[]⟩)]

/-- What `ProxySet.__init__` actually builds on `c9Resources`: the name map
holds four fresh wrappers — each wrapping the whole per-resource collection
(`get_proxy(elt=proxy, ...)`, not `elt=p`) — while the tuple's own element
sequence is empty. -/
def c9Built : ProxySetModel :=
  { elements := [],
    namesByProxy :=
      [(.wrap 0 (.pset [.int 1, .int 2]), "m"),
       (.wrap 1 (.pset [.int 1, .int 2]), "m"),
       (.wrap 2 (.tup [.int 3]), "x"),
       (.wrap 3 (.tup [.int 4]), "y")] }

/-
Theorems.
-/

/-- Helper: on every `Port` object, `_renew_proxy` raises
`AttributeError('inf')` on its first statement and leaves the state
untouched — `inf` is not among the attributes a `Port` instance has. -/
theorem renew_proxy_always_attribute_error (st : PortState) :
    Port._renew_proxy st = (st, .error (.attributeError "inf")) := rfl

/-- Helper: the body of `set_port` after the compatibility check can only
raise the renewal's `AttributeError`, never `PortError`. -/
theorem set_port_after_check_no_porterror (st : PortState) (p : PortVal)
    (name : String) :
    (Port.set_port_after_check st p name).2 ≠ Except.error PyErr.portError := by
  simp only [Port.set_port_after_check, renew_proxy_always_attribute_error]
  split
  · simp
  · simp

/-- C1: the claim says that, with no result policy configured, the per-call
dispatch returns raw results unchanged when they are a single
(non-PolicyResultSet) value and the first element when they are a non-empty
PolicyResultSet.  Evaluating the embedded dispatch with an execution policy
that produces the raw results PolicyResultSet((7, 8)) shows the source
instead returns the literal one-element list `[0]` (port.py line 373 reads
`result = [0]`, not `result = results[0]`), which is not the first raw
result `7`. -/
theorem c1_default_result_is_literal_zero_list :
    Port._method_proxy none (some (fun _ => PValue.prs [.int 7, .int 8])) none
      (fun p => p) (PValue.prs [.int 10, .int 20])
      = .ok (.pyList [.int 0]) ∧
    PValue.pyList [.int 0] ≠ PValue.int 7 :=
  ⟨rfl, fun h => PValue.noConfusion h⟩

/-- C2: the claim says `check_res` is true iff every required interface of
the resource is a sub-interface of every required interface of the port,
and that `set_port` raises `PortError` exactly when this fails.  With the
sub-interface relation `≤` on `Nat`, the resource interfaces `[5, 1]` and
the port interfaces `[3]`: `5 ≤ 3` fails, so the specified predicate is
false — but the source's `check_res` returns `True` (the `break` on
port.py line 251 exits only the inner loop, so the last resource interface
overwrites every earlier failure), and `set_port` accordingly raises no
`PortError` for this incompatible resource (it proceeds past the check and
then fails inside proxy renewal). -/
theorem c2_check_res_overwrites_earlier_failures :
    Port.check_res Nat.ble [5, 1] [3] = true ∧
    check_res_asSpecified Nat.ble [5, 1] [3] = false ∧
    (Port.set_port Nat.ble examplePort (.res [5, 1] (.int 0)) "r").2
      = .error (.attributeError "inf") :=
  ⟨rfl, rfl, rfl⟩

/-- C3: the claim says binding a resource invalidates and eagerly
regenerates the proxy within the same `set_port` call, so that `proxy`
reads are never stale, and that regeneration is propagated through
`_bound_on`.  In the source, whenever `set_port` reaches the renewal (the
old or new binding is a resource passing `check_res`), `_renew_proxy`
raises `AttributeError` on its very first statement (`self.inf` — only
`_inf` exists; likewise `self.sup`, `self.ifs`, and `_method_proxy`'s
`self._respolicy`/`rountine=` keyword), so no new proxy is ever produced,
the cached `_proxy` stays exactly as it was before the mutation, and the
`_bound_on` propagation loop is never reached. -/
theorem c3_set_port_regeneration_crashes (isSub : Nat → Nat → Bool)
    (st : PortState) (ritfs : List Nat) (pv : PValue) (name : String)
    (h : Port.check_res isSub ritfs st.itfs = true) :
    (Port.set_port isSub st (.res ritfs pv) name).2
      = .error (.attributeError "inf") ∧
    ((Port.set_port isSub st (.res ritfs pv) name).1).proxyCache
      = st.proxyCache := by
  simp [Port.set_port, h, Port.set_port_after_check, PortVal.isResource,
    renew_proxy_always_attribute_error]

/-- Witness for C3 at a concrete compatible binding. -/
theorem c3_set_port_regeneration_crashes_witness :
    Port.check_res Nat.ble [2] examplePort.itfs = true ∧
    (Port.set_port Nat.ble examplePort (.res [2] (.int 1)) "a").2
      = .error (.attributeError "inf") :=
  ⟨rfl, (c3_set_port_regeneration_crashes Nat.ble examplePort [2] (.int 1)
    "a" rfl).1⟩

/-- C4: `CountPolicy` raises `CountError` on a tagged candidate set exactly
when the candidate count is strictly below `inf`, for every `sup`, for both
values of the `random` flag and for every shuffle outcome `perm` — the
length test on port of policy/base.py line 140 runs before any slicing or
shuffling, so neither influences whether the error is raised. -/
theorem c4_count_error_iff_below_inf (inf sup : Nat) (random : Bool)
    (perm : List PValue → List PValue) (l : List PValue) :
    (CountPolicy.call inf sup random perm (.prs l) = .error .countError)
      ↔ l.length < inf := by
  by_cases h : l.length < inf
  · simp [CountPolicy.call, ParameterizedPolicy.call, h]
  · simp [CountPolicy.call, ParameterizedPolicy.call, h]

/-- Witness for C4: one candidate with `inf = 2` raises `CountError` even
with `random = True`. -/
theorem c4_count_error_iff_below_inf_witness :
    CountPolicy.call 2 9 true (fun l => l) (.prs [.int 9])
      = .error .countError :=
  (c4_count_error_iff_below_inf 2 9 true (fun l => l) [.int 9]).mpr
    (by decide)

/-- C5 counterexample: the claim says `CountPolicy(inf=2, sup=4,
random=False)` uses all candidates when there are between 2 and 4 of them.
With the 3 tagged candidates `(1, 2, 3)` the source keeps the slice
`[2:4]`, i.e. only the third candidate — not all of them. -/
theorem c5_count_claim_counterexample :
    CountPolicy.call 2 4 false (fun l => l) (.prs [.int 1, .int 2, .int 3])
      = .ok (.prs [.int 3]) ∧
    PValue.prs [.int 3] ≠ PValue.prs [.int 1, .int 2, .int 3] :=
  ⟨rfl, by intro h; simp at h⟩

/-- C5 (amended): `CountPolicy(inf=2, sup=4, random=False)` over `n ≥ 2`
tagged candidates keeps exactly the slice `[2:4]` of the candidate list —
the candidates at indices 2 and 3 that exist (none when `n = 2`, one when
`n = 3`, exactly those two for every `n ≥ 4`) — not all candidates and not
the first four. -/
theorem c5_count_2_4_keeps_slice_window (l : List PValue)
    (h : 2 ≤ l.length) :
    CountPolicy.call 2 4 false (fun x => x) (.prs l)
      = .ok (.prs ((l.drop 2).take 2)) := by
  simp [CountPolicy.call, ParameterizedPolicy.call, Nat.not_lt.mpr h]

/-- Witness for the amended C5: five candidates keep exactly the elements
at indices 2 and 3. -/
theorem c5_count_2_4_keeps_slice_window_witness :
    2 ≤ ([PValue.int 1, .int 2, .int 3, .int 4, .int 5] : List PValue).length ∧
    CountPolicy.call 2 4 false (fun x => x)
      (.prs [.int 1, .int 2, .int 3, .int 4, .int 5])
      = .ok (.prs [.int 3, .int 4]) :=
  ⟨by decide,
   c5_count_2_4_keeps_slice_window [.int 1, .int 2, .int 3, .int 4, .int 5]
     (by decide)⟩

/-- C6: whenever `set_port` raises `PortError`, the port's state —
bindings and cached proxy alike — is exactly what it was before the call:
the compatibility check is the first statement of `set_port`, before any
binding change. -/
theorem c6_porterror_aborts_before_any_mutation (isSub : Nat → Nat → Bool)
    (st : PortState) (p : PortVal) (name : String)
    (h : (Port.set_port isSub st p name).2 = .error .portError) :
    (Port.set_port isSub st p name).1 = st := by
  cases p with
  | plain v =>
      exact absurd h (set_port_after_check_no_porterror st (.plain v) name)
  | res ritfs pv =>
      by_cases hc : Port.check_res isSub ritfs st.itfs = true
      · exfalso
        apply set_port_after_check_no_porterror st (.res ritfs pv) name
        simpa [Port.set_port, hc] using h
      · simp [Port.set_port, hc]

/-- Witness for C6: binding the incompatible resource with interfaces `[5]`
to the port requiring `[3]` (sub-interface relation `≤`) raises `PortError`
and leaves the port exactly as it was. -/
theorem c6_porterror_aborts_before_any_mutation_witness :
    (Port.set_port Nat.ble examplePort (.res [5] (.int 0)) "r").2
      = .error .portError ∧
    (Port.set_port Nat.ble examplePort (.res [5] (.int 0)) "r").1
      = examplePort :=
  ⟨rfl, c6_porterror_aborts_before_any_mutation Nat.ble examplePort
    (.res [5] (.int 0)) "r" rfl⟩

/-- C7 (passthrough law): every policy — First, All, Count (for every
bounds, flag and shuffle), Random (for every pick) and Roundabout (for
every cursor, which is left untouched) — returns a non-PolicyResultSet
value completely unchanged. -/
theorem c7_policy_passthrough (v : PValue) (h : v.isPRS = false) :
    FirstPolicy.call v = v ∧
    AllPolicy.call v = v ∧
    (∀ inf sup random perm,
      CountPolicy.call inf sup random perm v = .ok v) ∧
    (∀ pick, RandomPolicy.call pick v = v) ∧
    (∀ index, RoundaboutPolicy.call index v = (.ok v, index)) := by
  cases v <;>
    simp_all [FirstPolicy.call, AllPolicy.call, CountPolicy.call,
      RandomPolicy.call, RoundaboutPolicy.call, ParameterizedPolicy.call,
      PValue.isPRS]

/-- Witness for C7 at the untagged value `42`. -/
theorem c7_policy_passthrough_witness :
    PValue.isPRS (.int 42) = false ∧
    FirstPolicy.call (.int 42) = .int 42 ∧
    RoundaboutPolicy.call 7 (.int 42) = (.ok (.int 42), 7) :=
  ⟨rfl, (c7_policy_passthrough (.int 42) rfl).1,
    (c7_policy_passthrough (.int 42) rfl).2.2.2.2 7⟩

/-- C8: on the fixed tagged set `(a, b, c)` (here `1, 2, 3`) a single
`RoundaboutPolicy` instance returns `a`, `b`, `c` on three successive calls
and wraps back to `a` on the fourth — the cursor, threaded through the
calls, advances `0 → 1 → 2 → 0` modulo the set length; on an empty tagged
set the policy returns `None` and the cursor is untouched. -/
theorem c8_roundabout_cycles_and_wraps :
    RoundaboutPolicy.call 0 (.prs [.int 1, .int 2, .int 3])
      = (.ok (.int 1), 1) ∧
    RoundaboutPolicy.call 1 (.prs [.int 1, .int 2, .int 3])
      = (.ok (.int 2), 2) ∧
    RoundaboutPolicy.call 2 (.prs [.int 1, .int 2, .int 3])
      = (.ok (.int 3), 0) ∧
    RoundaboutPolicy.call 0 (.prs [.int 1, .int 2, .int 3])
      = (.ok (.int 1), 1) ∧
    RoundaboutPolicy.call 5 (.prs []) = (.ok .pyNone, 5) :=
  ⟨rfl, rfl, rfl, rfl, rfl⟩

/-- C9: the claim says this `ProxySet` contains exactly 4 flattened proxies,
each resolvable via `get_resource_name` to its owning resource name.
Evaluating the embedded constructor: on the claim's scenario the
constructed sequence holds 0 proxies, not 4 (the computed wrappers are
never installed as the tuple's elements, and each wraps the whole
per-resource collection rather than one backend); the name map does resolve
the wrappers it recorded; and on ordinary resources the constructor does
not even complete — `resource[name]` raises `KeyError`. -/
theorem c9_proxyset_flatten_defects :
    ProxySet.init c9Resources = .ok c9Built ∧
    c9Built.elements.length = 0 ∧
    ProxySet.get_resource_name c9Built (.wrap 0 (.pset [.int 1, .int 2]))
      = .ok "m" ∧
    ProxySet.init c9BareResources = .error (.keyError "m") :=
  ⟨rfl, rfl, rfl, rfl⟩

/-- C10: assigning `Port.multiple` a value equal to the current flag is a
no-op — the state (cached proxy included) is returned untouched, and
`_renew_proxy` is not invoked (third component `false`); `_renew_proxy` is
invoked exactly when the assigned value differs from the current flag. -/
theorem c10_multiple_setter_noop_when_equal (st : PortState) (value : Bool) :
    ((Port.multiple_setter st value).2.2 = (value != st.multiple)) ∧
    (value = st.multiple →
      Port.multiple_setter st value = (st, .ok (), false)) := by
  by_cases h : value = st.multiple
  · simp [Port.multiple_setter, h]
  · simp [Port.multiple_setter, h, renew_proxy_always_attribute_error]

/-- Witness for C10: re-assigning the current flag of the example port
leaves it untouched and does not invoke `_renew_proxy`. -/
theorem c10_multiple_setter_noop_when_equal_witness :
    Port.multiple_setter examplePort examplePort.multiple
      = (examplePort, .ok (), false) :=
  (c10_multiple_setter_noop_when_equal examplePort examplePort.multiple).2 rfl
